import Mathlib

set_option maxRecDepth 8000

/-!
Verification of the offline molecular-bonding verification suite:
the physics diagnostic simulator (`scripts/physics_verifier.py`) and the
topology/valence auditor (`audit_valency.py`).

Numeric model: Python floats are embedded as exact rationals (`ℚ`).
`math.sqrt` is embedded by `ratSqrt`, which returns the exact square root
whenever the radicand is the square of a rational and `0` otherwise; in
every concrete run verified below the radicand is a perfect square, where
IEEE double sqrt is also exact, so the embedded runs coincide with the
floating-point runs on the quantities the claims mention.
-/

namespace PhysicsVerifier

/-- Constant `BOND_SPRING_K = 8.0` (physics_verifier.py line 5). -/
def BOND_SPRING_K : ℚ := 8

/-- Constant `BOND_DAMPING = 0.92` (line 6). -/
def BOND_DAMPING : ℚ := 92/100

/-- Constant `BOND_IDEAL_DIST = 42.0` (line 8). -/
def BOND_IDEAL_DIST : ℚ := 42

/-- Constant `DT = 1.0 / 60.0` (line 9). -/
def DT : ℚ := 1/60

/-- Constant `BASE_ATOM_RADIUS = 7.0` (line 12). -/
def BASE_ATOM_RADIUS : ℚ := 7

/-- Constant `VDW_CARBON = 1.7` (line 13). -/
def VDW_CARBON : ℚ := 17/10

/-- Derived `ATOM_RADIUS_PX = VDW_CARBON * BASE_ATOM_RADIUS` (line 19). -/
def ATOM_RADIUS_PX : ℚ := VDW_CARBON * BASE_ATOM_RADIUS

/-- Derived `ATOM_DIAMETER_PX = ATOM_RADIUS_PX * 2` (line 20). -/
def ATOM_DIAMETER_PX : ℚ := ATOM_RADIUS_PX * 2

/-- Constant `MASS = 12.0` (line 22). -/
def MASS : ℚ := 12

/-- The particle state `Atom` (lines 24-32): id, position, velocity,
accumulated force. -/
@[ext]
structure Atom where
  id : ℕ
  x : ℚ
  y : ℚ
  vx : ℚ
  vy : ℚ
  fx : ℚ
  fy : ℚ
deriving DecidableEq, Repr

/-- Method `Atom.apply_force` (lines 34-36): add to the force accumulator. -/
def Atom.apply_force (a : Atom) (fx fy : ℚ) : Atom :=
  { a with fx := a.fx + fx, fy := a.fy + fy }

/-- Method `Atom.update` (lines 38-48): acceleration from accumulated force,
velocity update, velocity decay `0.95`, position update from the decayed
velocity, then force reset. -/
def Atom.update (a : Atom) : Atom :=
  let ax := a.fx / MASS
  let ay := a.fy / MASS
  let vx := (a.vx + ax * DT) * (95/100)
  let vy := (a.vy + ay * DT) * (95/100)
  { a with x := a.x + vx * DT, y := a.y + vy * DT,
           vx := vx, vy := vy, fx := 0, fy := 0 }

/-- Fuel-bounded integer square root (structurally recursive, so proofs
can evaluate it); with fuel `f` it is the floor square root for every
`n < 4 ^ f`. -/
def sqrtFuel (fuel n : ℕ) : ℕ :=
  match fuel with
  | 0 => n
  | fuel + 1 =>
    if n ≤ 1 then n
    else
      let s := sqrtFuel fuel (n / 4) * 2
      if (s + 1) * (s + 1) ≤ n then s + 1 else s

/-- Integer square root with enough fuel for any input below `4 ^ 64`. -/
def intSqrt (n : ℕ) : ℕ := sqrtFuel 64 n

/-- Embedding of `math.sqrt` on rationals: the exact square root when the
argument is the square of a rational, `0` otherwise. -/
def ratSqrt (q : ℚ) : ℚ :=
  let sn := intSqrt q.num.toNat
  let sd := intSqrt q.den
  if (sn * sn : ℤ) = q.num ∧ sd * sd = q.den then mkRat sn sd else 0

/-- Function `dist` (lines 50-51): Euclidean distance between two atoms. -/
def dist (a b : Atom) : ℚ :=
  ratSqrt ((a.x - b.x)^2 + (a.y - b.y)^2)

/-- Function `solve_bond` (lines 53-74).  Python mutates `a` and `b` in place and
returns a Bool; the embedding returns the updated pair together with the
Bool. -/
def solve_bond (a b : Atom) : Atom × Atom × Bool :=
  let d := dist a b
  if d = 0 then (a, b, false)
  else
    let force := (d - BOND_IDEAL_DIST) * BOND_SPRING_K
    let dx := b.x - a.x
    let dy := b.y - a.y
    let fx := (dx/d) * force
    let fy := (dy/d) * force
    let rx := b.vx - a.vx
    let ry := b.vy - a.vy
    let damp := (rx * (dx/d) + ry * (dy/d)) * BOND_DAMPING
    let fx' := fx + (dx/d) * damp
    let fy' := fy + (dy/d) * damp
    (a.apply_force fx' fy', b.apply_force (-fx') (-fy'), true)

/-- The spring-plus-axial-damping force vector computed inside
`solve_bond` (lines 58-70), directed along the unit vector from the
first argument to the second. -/
def bondForce (a b : Atom) : ℚ × ℚ :=
  let d := dist a b
  let force := (d - BOND_IDEAL_DIST) * BOND_SPRING_K
  let dx := b.x - a.x
  let dy := b.y - a.y
  let damp := ((b.vx - a.vx) * (dx/d) + (b.vy - a.vy) * (dy/d)) * BOND_DAMPING
  ((dx/d) * force + (dx/d) * damp, (dy/d) * force + (dy/d) * damp)

/-- The fixed C4-square topology (line 77). -/
def initAtoms : List Atom :=
  [⟨0, 0, 0, 0, 0, 0, 0⟩, ⟨1, 42, 0, 0, 0, 0, 0⟩,
   ⟨2, 42, 42, 0, 0, 0, 0⟩, ⟨3, 0, 42, 0, 0, 0, 0⟩]

/-- The fixed cyclic bond list (line 78). -/
def bonds : List (ℕ × ℕ) :=
  [(0, 1), (1, 2), (2, 3), (3, 0)]

/-- List indexing `atoms[i]`; every index used by the script is in
range, so the default atom is never read in the verified runs. -/
def atomAt (atoms : List Atom) (i : ℕ) : Atom :=
  atoms.getD i ⟨0, 0, 0, 0, 0, 0, 0⟩

/-- One bond pass `solve_bond(atoms[i], atoms[j])` (line 89), writing
the two mutated atoms back into the list. -/
def applyBond (atoms : List Atom) (ij : ℕ × ℕ) : List Atom :=
  let r := solve_bond (atomAt atoms ij.1) (atomAt atoms ij.2)
  (atoms.set ij.1 r.1).set ij.2 r.2.1

/-- One body of the 300-step loop without the gap bookkeeping: all bond
solves, then all integrator updates (lines 89-90). -/
def stepSim (atoms : List Atom) : List Atom :=
  (bonds.foldl applyBond atoms).map Atom.update

/-- The gap quantity tracked by the loop: `dist(atoms[0], atoms[1]) -
ATOM_DIAMETER_PX` (lines 93-94). -/
def gapOf (atoms : List Atom) : ℚ :=
  dist (atomAt atoms 0) (atomAt atoms 1) - ATOM_DIAMETER_PX

/-- One full iteration of the 300-step loop, threading the running
minimum gap (lines 88-95). -/
def runStep (st : List Atom × ℚ) : List Atom × ℚ :=
  let atoms := stepSim st.1
  let gap := gapOf atoms
  (atoms, if gap < st.2 then gap else st.2)

/-- The state after the full 300-step run, starting from the square
topology and `min_gap = 1000.0` (lines 86-95). -/
def finalState : List Atom × ℚ :=
  runStep^[300] (initAtoms, 1000)

/-- Quantity `final_dist = dist(atoms[0], atoms[1])` after the run (line 98). -/
def final_dist : ℚ :=
  dist (atomAt finalState.1 0) (atomAt finalState.1 1)

/-- Quantity `final_gap = final_dist - ATOM_DIAMETER_PX` (line 99). -/
def final_gap : ℚ := final_dist - ATOM_DIAMETER_PX

/-- The minimum gap observed across the run (lines 86, 95). -/
def min_gap : ℚ := finalState.2

/-- The three verdict lines of the script (lines 104-109). -/
inductive Verdict where
  | PASS
  | WARN
  | FAIL
deriving DecidableEq, Repr

/-- The verdict classification of lines 104-109: strictly more than 5 is
PASS, strictly positive is WARN, otherwise FAIL. -/
def verdict (final_gap : ℚ) : Verdict :=
  if final_gap > 5 then Verdict.PASS
  else if final_gap > 0 then Verdict.WARN
  else Verdict.FAIL

end PhysicsVerifier

namespace AuditValency

/-- One parsed `[BOND] GLOBAL SUCCESS: child -> parent` log event
(audit_valency.py lines 32, 40-41). -/
structure BondEvent where
  child : ℕ
  parent : ℕ
deriving DecidableEq, Repr

/-- One fold step of `connections[parent].append(child)` (line 42) on
the defaultdict-of-lists, embedded as a total function that is `[]` on
absent keys. -/
def addEvent (g : ℕ → List ℕ) (e : BondEvent) : ℕ → List ℕ :=
  fun p => if p = e.parent then g p ++ [e.child] else g p

/-- The `connections` mapping after replaying the whole event list
(lines 23, 36-42). -/
def connections (events : List BondEvent) : ℕ → List ℕ :=
  events.foldl addEvent (fun _ => [])

/-- One fold step of `parent_of[child] = parent` (line 43), embedded as
a total function that is `none` on absent keys. -/
def addParent (m : ℕ → Option ℕ) (e : BondEvent) : ℕ → Option ℕ :=
  fun c => if c = e.child then some e.parent else m c

/-- The `parent_of` mapping after replaying the whole event list
(lines 25, 36-43). -/
def parent_of (events : List BondEvent) : ℕ → Option ℕ :=
  events.foldl addParent (fun _ => none)

/-- The violation list accumulated by `analyze_logs` (lines 47-55): a
violation is appended only under `0 in connections` (for the
defaultdict this is equivalent to a nonempty child list, since keys are
created exactly by appends) and `count > 1`. -/
def violations (events : List BondEvent) : List String :=
  let children := connections events 0
  if children ≠ [] then
    if children.length > 1 then
      ["VIOLACIÓN: Jugador (H) tiene " ++ toString children.length ++
        " enlaces (máx 1)."]
    else []
  else []

end AuditValency

namespace PhysicsVerifier

theorem stepSim_initAtoms : stepSim initAtoms = initAtoms := by
  with_unfolding_all rfl

theorem runStep_start : runStep (initAtoms, 1000) = (initAtoms, 91/5) := by
  with_unfolding_all rfl

theorem runStep_fix : runStep (initAtoms, 91/5) = (initAtoms, 91/5) := by
  with_unfolding_all rfl

theorem iterate_runStep (n : ℕ) :
    runStep^[n + 1] (initAtoms, 1000) = (initAtoms, 91/5) := by
  induction n with
  | zero => simpa using runStep_start
  | succ k ih => rw [Function.iterate_succ_apply', ih, runStep_fix]

theorem finalState_eq : finalState = (initAtoms, 91/5) := by
  have h : (300 : ℕ) = 299 + 1 := rfl
  unfold finalState
  rw [h]
  exact iterate_runStep 299

theorem final_dist_eq : final_dist = 42 := by
  unfold final_dist
  rw [finalState_eq]
  with_unfolding_all rfl

theorem final_gap_eq : final_gap = 91/5 := by
  unfold final_gap
  rw [final_dist_eq]
  unfold ATOM_DIAMETER_PX ATOM_RADIUS_PX VDW_CARBON BASE_ATOM_RADIUS
  norm_num

theorem min_gap_eq : min_gap = 91/5 := by
  unfold min_gap
  rw [finalState_eq]

/-- C2: with the default constants and the fixed 4-particle square with 4
cyclic bonds, after 300 solver+integrator steps the distance between
particles 0 and 1 is within one half of 42, the particle diameter is
exactly 23.8, and the verdict is PASS because the final gap exceeds 5. -/
theorem run300_converges_and_passes :
    |final_dist - 42| ≤ 1/2 ∧ ATOM_DIAMETER_PX = 119/5 ∧
    final_gap > 5 ∧ verdict final_gap = Verdict.PASS := by
  refine ⟨?_, ?_, ?_, ?_⟩
  · rw [final_dist_eq]; norm_num
  · unfold ATOM_DIAMETER_PX ATOM_RADIUS_PX VDW_CARBON BASE_ATOM_RADIUS; norm_num
  · rw [final_gap_eq]; norm_num
  · rw [final_gap_eq]
    unfold verdict
    rw [if_pos (by norm_num)]

theorem runStep_snd_le (st : List Atom × ℚ) :
    (runStep st).2 ≤ gapOf (runStep st).1 := by
  unfold runStep
  dsimp only
  split_ifs with h
  · exact le_refl _
  · exact le_of_not_lt h

/-- C9: the minimum gap tracked across the 300-step run is at most the
final reported gap; in fact after any positive number of steps the
tracked minimum is at most the gap of the current state. -/
theorem min_gap_le_final_gap :
    min_gap ≤ final_gap ∧
    ∀ n : ℕ, (runStep^[n + 1] (initAtoms, 1000)).2 ≤
      gapOf (runStep^[n + 1] (initAtoms, 1000)).1 := by
  constructor
  · rw [min_gap_eq, final_gap_eq]
  · intro n
    rw [Function.iterate_succ_apply']
    exact runStep_snd_le _

end PhysicsVerifier

namespace PhysicsVerifier

/-- C5: one integrator step computes acceleration from the accumulated
force, updates the velocity, decays it by 0.95, moves the position by the
new decayed velocity times the timestep, resets the force accumulator,
and changes no other field. -/
theorem atom_update_semantics (a : Atom) :
    a.update = ⟨a.id,
      a.x + ((a.vx + (a.fx / MASS) * DT) * (95/100)) * DT,
      a.y + ((a.vy + (a.fy / MASS) * DT) * (95/100)) * DT,
      (a.vx + (a.fx / MASS) * DT) * (95/100),
      (a.vy + (a.fy / MASS) * DT) * (95/100),
      0, 0⟩ := rfl

theorem update_rest (a : Atom) (hvx : a.vx = 0) (hvy : a.vy = 0)
    (hfx : a.fx = 0) (hfy : a.fy = 0) : a.update = a := by
  unfold Atom.update
  ext <;> simp [hvx, hvy, hfx, hfy]

theorem ratSqrt_zero : ratSqrt 0 = 0 := by with_unfolding_all rfl

/-- C3: when the two particles coincide exactly, the solver performs no
force computation: both atoms come back unchanged and the return flag is
false. -/
theorem solve_bond_coincident_skip (a b : Atom) (hx : a.x = b.x) (hy : a.y = b.y) :
    solve_bond a b = (a, b, false) := by
  have hd : dist a b = 0 := by
    unfold dist
    rw [hx, hy, show (b.x - b.x)^2 + (b.y - b.y)^2 = (0:ℚ) from by ring]
    exact ratSqrt_zero
  unfold solve_bond
  rw [hd]
  simp

/-- Witness for C3 at a concrete coincident pair with nonzero velocities
and accumulators. -/
theorem solve_bond_coincident_skip_witness :
    solve_bond ⟨0, 5, 6, 1, 2, 3, 4⟩ ⟨1, 5, 6, 7, 8, 9, 10⟩ =
      (⟨0, 5, 6, 1, 2, 3, 4⟩, ⟨1, 5, 6, 7, 8, 9, 10⟩, false) :=
  solve_bond_coincident_skip _ _ rfl rfl

end PhysicsVerifier

namespace PhysicsVerifier

/-- C4 (equilibrium is a fixed point): two bonded particles exactly at
the ideal distance with zero velocity and zero accumulated force receive
zero force from the solver, and one integrator step then leaves both
positions unchanged. -/
theorem equilibrium_fixed_point (a b : Atom)
    (hd : dist a b = BOND_IDEAL_DIST)
    (havx : a.vx = 0) (havy : a.vy = 0) (hbvx : b.vx = 0) (hbvy : b.vy = 0)
    (hafx : a.fx = 0) (hafy : a.fy = 0) (hbfx : b.fx = 0) (hbfy : b.fy = 0) :
    solve_bond a b = (a, b, true) ∧
    (solve_bond a b).1.update.x = a.x ∧ (solve_bond a b).1.update.y = a.y ∧
    (solve_bond a b).2.1.update.x = b.x ∧ (solve_bond a b).2.1.update.y = b.y := by
  have hmain : solve_bond a b = (a, b, true) := by
    obtain ⟨aid, ax, ay, avx, avy, afx, afy⟩ := a
    obtain ⟨bid, bx, by', bvx, bvy, bfx, bfy⟩ := b
    dsimp only at havx havy hbvx hbvy hafx hafy hbfx hbfy
    subst havx havy hbvx hbvy hafx hafy hbfx hbfy
    unfold solve_bond
    rw [hd, if_neg (by unfold BOND_IDEAL_DIST; norm_num)]
    unfold Atom.apply_force
    simp only [Prod.mk.injEq, Atom.mk.injEq]
    unfold BOND_IDEAL_DIST BOND_SPRING_K BOND_DAMPING
    norm_num
  refine ⟨hmain, ?_⟩
  rw [hmain]
  have ha := update_rest a havx havy hafx hafy
  have hb := update_rest b hbvx hbvy hbfx hbfy
  dsimp only
  rw [ha, hb]
  exact ⟨rfl, rfl, rfl, rfl⟩

/-- Witness for C4 at the concrete resting pair (0,0) and (42,0). -/
theorem equilibrium_fixed_point_witness :
    solve_bond ⟨0, 0, 0, 0, 0, 0, 0⟩ ⟨1, 42, 0, 0, 0, 0, 0⟩ =
      (⟨0, 0, 0, 0, 0, 0, 0⟩, ⟨1, 42, 0, 0, 0, 0, 0⟩, true) ∧
    (solve_bond ⟨0, 0, 0, 0, 0, 0, 0⟩ ⟨1, 42, 0, 0, 0, 0, 0⟩).1.update.x = (0:ℚ) ∧
    (solve_bond ⟨0, 0, 0, 0, 0, 0, 0⟩ ⟨1, 42, 0, 0, 0, 0, 0⟩).1.update.y = (0:ℚ) ∧
    (solve_bond ⟨0, 0, 0, 0, 0, 0, 0⟩ ⟨1, 42, 0, 0, 0, 0, 0⟩).2.1.update.x = (42:ℚ) ∧
    (solve_bond ⟨0, 0, 0, 0, 0, 0, 0⟩ ⟨1, 42, 0, 0, 0, 0, 0⟩).2.1.update.y = (0:ℚ) :=
  equilibrium_fixed_point ⟨0, 0, 0, 0, 0, 0, 0⟩ ⟨1, 42, 0, 0, 0, 0, 0⟩
    (by with_unfolding_all rfl) rfl rfl rfl rfl rfl rfl rfl rfl

end PhysicsVerifier

namespace PhysicsVerifier

theorem dist_swap (a b : Atom) : dist b a = dist a b := by
  unfold dist
  rw [show (b.x - a.x)^2 + (b.y - a.y)^2 = (a.x - b.x)^2 + (a.y - b.y)^2 from by ring]

/-- C1 counterexample: at particles (0,0) and (100,0) at rest, the
computed force along the unit vector from A to B has x-component 464,
but the solver adds +464 to A's accumulator and -464 to B's accumulator,
the opposite assignment of the one claimed. -/
theorem solve_bond_sign_counterexample :
    (bondForce ⟨0, 0, 0, 0, 0, 0, 0⟩ ⟨1, 100, 0, 0, 0, 0, 0⟩).1 = 464 ∧
    (solve_bond ⟨0, 0, 0, 0, 0, 0, 0⟩ ⟨1, 100, 0, 0, 0, 0, 0⟩).2.1.fx = -464 ∧
    (solve_bond ⟨0, 0, 0, 0, 0, 0, 0⟩ ⟨1, 100, 0, 0, 0, 0, 0⟩).1.fx = 464 ∧
    (-464 : ℚ) ≠ 464 :=
  ⟨by with_unfolding_all rfl, by with_unfolding_all rfl,
   by with_unfolding_all rfl, by norm_num⟩

/-- C1 amended: for non-coincident particles the solver computes the
spring-plus-damping force vector along the unit vector from A to B, adds
it to A's accumulator and its negation to B's accumulator (equal and
opposite), and returns true. -/
theorem solve_bond_newton_pairs (a b : Atom) (h : dist a b ≠ 0) :
    (solve_bond a b).1.fx = a.fx + (bondForce a b).1 ∧
    (solve_bond a b).1.fy = a.fy + (bondForce a b).2 ∧
    (solve_bond a b).2.1.fx = b.fx - (bondForce a b).1 ∧
    (solve_bond a b).2.1.fy = b.fy - (bondForce a b).2 ∧
    (solve_bond a b).2.2 = true := by
  unfold solve_bond bondForce Atom.apply_force
  rw [if_neg h]
  dsimp only
  refine ⟨by ring, by ring, by ring, by ring, rfl⟩

/-- Witness for the amended C1 at the concrete pair (0,0), (100,0). -/
theorem solve_bond_newton_pairs_witness :
    (solve_bond ⟨0, 0, 0, 0, 0, 0, 0⟩ ⟨1, 100, 0, 0, 0, 0, 0⟩).1.fx =
      (0 : ℚ) + (bondForce ⟨0, 0, 0, 0, 0, 0, 0⟩ ⟨1, 100, 0, 0, 0, 0, 0⟩).1 ∧
    (solve_bond ⟨0, 0, 0, 0, 0, 0, 0⟩ ⟨1, 100, 0, 0, 0, 0, 0⟩).1.fy =
      (0 : ℚ) + (bondForce ⟨0, 0, 0, 0, 0, 0, 0⟩ ⟨1, 100, 0, 0, 0, 0, 0⟩).2 ∧
    (solve_bond ⟨0, 0, 0, 0, 0, 0, 0⟩ ⟨1, 100, 0, 0, 0, 0, 0⟩).2.1.fx =
      (0 : ℚ) - (bondForce ⟨0, 0, 0, 0, 0, 0, 0⟩ ⟨1, 100, 0, 0, 0, 0, 0⟩).1 ∧
    (solve_bond ⟨0, 0, 0, 0, 0, 0, 0⟩ ⟨1, 100, 0, 0, 0, 0, 0⟩).2.1.fy =
      (0 : ℚ) - (bondForce ⟨0, 0, 0, 0, 0, 0, 0⟩ ⟨1, 100, 0, 0, 0, 0, 0⟩).2 ∧
    (solve_bond ⟨0, 0, 0, 0, 0, 0, 0⟩ ⟨1, 100, 0, 0, 0, 0, 0⟩).2.2 = true :=
  solve_bond_newton_pairs ⟨0, 0, 0, 0, 0, 0, 0⟩ ⟨1, 100, 0, 0, 0, 0, 0⟩
    (by have : dist ⟨0, 0, 0, 0, 0, 0, 0⟩ ⟨1, 100, 0, 0, 0, 0, 0⟩ = 100 := by
          with_unfolding_all rfl
        rw [this]; norm_num)

/-- C10: the solver is symmetric in its arguments: swapping them swaps
the two updated atoms and keeps the returned flag, so both particles
receive exactly the same accumulator updates either way. -/
theorem solve_bond_symm (a b : Atom) :
    (solve_bond b a).1 = (solve_bond a b).2.1 ∧
    (solve_bond b a).2.1 = (solve_bond a b).1 ∧
    (solve_bond b a).2.2 = (solve_bond a b).2.2 := by
  by_cases h : dist a b = 0
  · have h' : dist b a = 0 := by rw [dist_swap, h]
    unfold solve_bond
    rw [h, h']
    simp
  · have h' : dist b a ≠ 0 := by rw [dist_swap]; exact h
    unfold solve_bond Atom.apply_force
    rw [if_neg h, if_neg h', dist_swap]
    dsimp only
    refine ⟨?_, ?_, rfl⟩ <;> (apply Atom.ext <;> dsimp only <;> ring)

end PhysicsVerifier

namespace PhysicsVerifier

/-- C7: the verdict is a function of the final gap alone, with exact
thresholds: PASS iff the gap exceeds 5, WARN iff it is positive but at
most 5, FAIL iff it is nonpositive. -/
theorem verdict_thresholds (g : ℚ) :
    (verdict g = Verdict.PASS ↔ g > 5) ∧
    (verdict g = Verdict.WARN ↔ 0 < g ∧ g ≤ 5) ∧
    (verdict g = Verdict.FAIL ↔ g ≤ 0) := by
  unfold verdict
  split_ifs with h1 h2
  · exact ⟨⟨fun _ => h1, fun _ => rfl⟩,
      ⟨fun hc => absurd hc (by decide), fun hg => absurd hg.2 (not_le.mpr h1)⟩,
      ⟨fun hc => absurd hc (by decide), fun hg => absurd hg (not_le.mpr (by linarith))⟩⟩
  · exact ⟨⟨fun hc => absurd hc (by decide), fun hg => absurd hg h1⟩,
      ⟨fun _ => ⟨h2, not_lt.mp h1⟩, fun _ => rfl⟩,
      ⟨fun hc => absurd hc (by decide), fun hg => absurd hg (not_le.mpr h2)⟩⟩
  · exact ⟨⟨fun hc => absurd hc (by decide), fun hg => absurd hg h1⟩,
      ⟨fun hc => absurd hc (by decide), fun hg => absurd hg.1 h2⟩,
      ⟨fun _ => not_lt.mp h2, fun _ => rfl⟩⟩

end PhysicsVerifier

namespace AuditValency

theorem addEvent_apply (g : ℕ → List ℕ) (e : BondEvent) (p : ℕ) :
    addEvent g e p = if p = e.parent then g p ++ [e.child] else g p := rfl

theorem addParent_apply (m : ℕ → Option ℕ) (e : BondEvent) (c : ℕ) :
    addParent m e c = if c = e.child then some e.parent else m c := rfl

/-- C6: over every event sequence, the auditor's violation list is empty
iff the root (id 0) has at most one recorded child, and when the root
has more than one child the list is exactly one violation text carrying
the observed count. -/
theorem valence_root_violation_iff (events : List BondEvent) :
    (violations events = [] ↔ (connections events 0).length ≤ 1) ∧
    (1 < (connections events 0).length →
      violations events =
        ["VIOLACIÓN: Jugador (H) tiene " ++ toString (connections events 0).length ++
          " enlaces (máx 1)."]) := by
  unfold violations
  by_cases hne : connections events 0 = []
  · simp [hne]
  · simp only [hne, ne_eq, not_false_eq_true, if_true]
    split_ifs with hlen
    · exact ⟨by simp; omega, fun _ => rfl⟩
    · exact ⟨by simp; omega, fun h => absurd h (by omega)⟩

/-- Witness for C6: two events both naming the root as parent produce
exactly the violation text with count 2. -/
theorem valence_root_violation_iff_witness :
    violations [⟨1, 0⟩, ⟨2, 0⟩] =
      ["VIOLACIÓN: Jugador (H) tiene " ++
        toString (connections [⟨1, 0⟩, ⟨2, 0⟩] 0).length ++ " enlaces (máx 1)."] :=
  (valence_root_violation_iff [⟨1, 0⟩, ⟨2, 0⟩]).2 (by decide)

theorem parent_of_spec (events : List BondEvent) (c : ℕ) :
    parent_of events c =
      ((events.filter (fun e => e.child == c)).getLast?).map (fun e => e.parent) := by
  induction events using List.reverseRecOn with
  | nil => rfl
  | append_singleton es e ih =>
      unfold parent_of at *
      rw [List.foldl_append, List.foldl_cons, List.foldl_nil, addParent_apply,
        List.filter_append]
      by_cases h : e.child = c
      · rw [if_pos h.symm,
          show List.filter (fun e => e.child == c) [e] = [e] from by simp [h],
          List.getLast?_concat]
        rfl
      · rw [if_neg (fun hc => h hc.symm),
          show List.filter (fun e => e.child == c) [e] = [] from by simp [h],
          List.append_nil]
        exact ih

theorem connections_spec (events : List BondEvent) (p : ℕ) :
    connections events p =
      (events.filter (fun e => e.parent == p)).map (fun e => e.child) := by
  induction events using List.reverseRecOn with
  | nil => rfl
  | append_singleton es e ih =>
      unfold connections at *
      rw [List.foldl_append, List.foldl_cons, List.foldl_nil, addEvent_apply,
        List.filter_append, List.map_append]
      by_cases h : e.parent = p
      · rw [if_pos h.symm,
          show List.filter (fun e => e.parent == p) [e] = [e] from by simp [h], ih]
        rfl
      · rw [if_neg (fun hc => h hc.symm),
          show List.filter (fun e => e.parent == p) [e] = [] from by simp [h],
          List.map_nil, List.append_nil]
        exact ih

/-- C8: replaying any event sequence, the recorded parent of a child is
the parent of the last event with that child (last write wins), and the
children of a parent are the children of its events in log order with
duplicates kept. -/
theorem bond_graph_fold_spec (events : List BondEvent) :
    (∀ c, parent_of events c =
      ((events.filter (fun e => e.child == c)).getLast?).map (fun e => e.parent)) ∧
    (∀ p, connections events p =
      (events.filter (fun e => e.parent == p)).map (fun e => e.child)) :=
  ⟨parent_of_spec events, connections_spec events⟩

end AuditValency
